import Mathlib

/-!
# Verification of the DOME Interchain Event Distributor (IED) event-flow engine

Shallow embedding of the core event-flow engine of the `dome-ied` repository:

* `src/utils/global-id.extractor.ts` — `extractGlobalId`
* `src/utils/event.transformer.ts` — `stripNetworkParameter`
* `src/services/cache.service.ts` — `markEventPublished`, `isEventOnNetwork`,
  `getMissingNetworks`, `markEventNotified`, `isEventNotified`
* `src/config/adapters.config.ts` — `getAdapterChainId`
* `src/config/env.config.ts` — `getEnvInt`, `envConfig.replication.delayMs`,
  `envConfig.retry.maxAttempts`
* `src/services/adapter.client.ts` — `retryCall`, `AdapterClient.publishEvent`
* `src/services/publication.service.ts` — `publishEventToAllAdapters`
* `src/services/replication.service.ts` — `handleIncomingEvent`, `replicateToNetworks`
* `src/services/subscription.service.ts` — `handleDesmosNotification`
* `src/controllers/publish.controller.ts`, `src/controllers/subscribe.controller.ts`

External collaborators (the Redis client, the WHATWG URL parser, the axios HTTP
client) are modelled by explicit state and oracle parameters; everything else is a
direct translation of the TypeScript source.  Effects are sequentialised:
`Promise.allSettled` fan-outs become left-to-right folds, which is observationally
equivalent here because the per-branch effects touch disjoint keys or are
commutative idempotent set-adds.
-/

namespace DomeIED

/-- Equality on `Except` results is decidable when it is on both payloads. -/
instance {ε α : Type} [DecidableEq ε] [DecidableEq α] : DecidableEq (Except ε α) :=
  fun x y =>
    match x, y with
    | .ok a, .ok b =>
      if h : a = b then .isTrue (by rw [h]) else .isFalse (fun hc => by cases hc; exact h rfl)
    | .error a, .error b =>
      if h : a = b then .isTrue (by rw [h]) else .isFalse (fun hc => by cases hc; exact h rfl)
    | .ok _, .error _ => .isFalse (fun hc => by cases hc)
    | .error _, .ok _ => .isFalse (fun hc => by cases hc)

/-! ## JavaScript string primitives

`String.prototype.trim` and `String.prototype.toUpperCase` are modelled
character-by-character (for the ASCII inputs the engine handles). -/

/-- JavaScript `s.trim()`: the string without leading and trailing whitespace. -/
def jsTrim (s : String) : String :=
  String.mk (((s.data.dropWhile Char.isWhitespace).reverse.dropWhile
    Char.isWhitespace).reverse)

/-- JavaScript `s.toUpperCase()` on ASCII strings. -/
def jsToUpper (s : String) : String :=
  String.mk (s.data.map Char.toUpper)

/-! ## Data model (`src/models/event.model.ts`) -/

/-- Structure `DomeEvent` as received from DLT adapters (`event.model.ts`).  The optional
TypeScript fields are `Option`s; a field that is `none` is absent from the
underlying JSON object.  `network` is the transport-only source-ledger tag. -/
structure DomeEvent where
  id : Nat
  timestamp : Nat
  eventType : String
  dataLocation : String
  entityIdHash : String
  previousEntityHash : String
  relevantMetadata : List String
  publisherAddress : Option String := none
  authorAddress : Option String := none
  origin : Option String := none
  network : Option String := none
  deriving Repr, DecidableEq

/-- Structure `PublishEventRequest` / `AdapterPublishRequest` (`event.model.ts`): the body
sent to `POST <publishEndpoint>` of an adapter.  The interface has no `network`
member. -/
structure PublishEventRequest where
  eventType : String
  dataLocation : String
  relevantMetadata : List String
  entityId : String
  previousEntityHash : String
  iss : Option String := none
  rpcAddress : Option String := none
  deriving Repr, DecidableEq

/-- The JSON keys present on the wire when a `DomeEvent` object is serialised as a
request body (absent optional fields produce no key). -/
def eventBodyKeys (e : DomeEvent) : List String :=
  ["id", "timestamp", "eventType", "dataLocation", "entityIdHash",
   "previousEntityHash", "relevantMetadata"]
    ++ (match e.publisherAddress with | some _ => ["publisherAddress"] | none => [])
    ++ (match e.authorAddress with | some _ => ["authorAddress"] | none => [])
    ++ (match e.origin with | some _ => ["origin"] | none => [])
    ++ (match e.network with | some _ => ["network"] | none => [])

/-- The JSON keys present on the wire when a `PublishEventRequest` is serialised
as a request body. -/
def publishRequestKeys (r : PublishEventRequest) : List String :=
  ["eventType", "dataLocation", "relevantMetadata", "entityId", "previousEntityHash"]
    ++ (match r.iss with | some _ => ["iss"] | none => [])
    ++ (match r.rpcAddress with | some _ => ["rpcAddress"] | none => [])

/-! ## Global-id extraction (`src/utils/global-id.extractor.ts`) -/

/-- Result of handing `dataLocation` to the platform URL parser (`new URL(...)`):
either the constructor throws (`invalid`), or it yields a parsed URL whose
decoded query pairs are `query` in order. -/
inductive URLParse where
  | invalid : URLParse
  | valid (query : List (String × String)) : URLParse
  deriving Repr, DecidableEq

/-- Model of `url.searchParams.get(k)`: the value of the first query pair named `k`,
or `null` when absent. -/
def searchParamsGet (query : List (String × String)) (k : String) : Option String :=
  (query.find? (fun p => p.1 == k)).map (·.2)

/-- The distinct throw sites of `extractGlobalId`. -/
inductive ExtractError where
  /-- Throw site `'dataLocation is required'` (falsy input). -/
  | required : ExtractError
  /-- Throw site `'Invalid dataLocation URL: ...'` (the `URL` constructor threw). -/
  | invalidURL : ExtractError
  /-- Throw site `'Missing "hl" parameter in dataLocation URL'` (`!globalId`: `null` or `""`). -/
  | missingHl : ExtractError
  /-- Throw site `'Empty "hl" parameter in dataLocation URL'` (`globalId.trim() === ''`). -/
  | emptyHl : ExtractError
  deriving Repr, DecidableEq

/-- Model of `extractGlobalId(dataLocation)` (`global-id.extractor.ts:17-48`), with the URL
parser's verdict passed as `parse`.  The `typeof` guard is unrepresentable (the
argument is a `String` here).  JavaScript `!globalId` is true for both `null`
and the empty string, so both fall into to the `missingHl` throw site. -/
def extractGlobalId (dataLocation : String) (parse : URLParse) :
    Except ExtractError String :=
  if dataLocation = "" then .error .required
  else
    match parse with
    | .invalid => .error .invalidURL
    | .valid query =>
      match searchParamsGet query "hl" with
      | none => .error .missingHl
      | some globalId =>
        if globalId = "" then .error .missingHl
        else if jsTrim globalId = "" then .error .emptyHl
        else .ok globalId

/-! ## Event transformation (`src/utils/event.transformer.ts`) -/

/-- Model of `stripNetworkParameter` (`event.transformer.ts:36-39`): rest-destructuring
that drops the `network` key and keeps every other property. -/
def stripNetworkParameter (e : DomeEvent) : DomeEvent :=
  { e with network := none }

/-- The `publishRequest` object literal built by `replicateToNetworks`
(`replication.service.ts:287-293`) from the stripped event. -/
def replicationPublishRequest (e : DomeEvent) : PublishEventRequest :=
  let eventWithoutNetwork := stripNetworkParameter e
  { eventType := eventWithoutNetwork.eventType
    dataLocation := eventWithoutNetwork.dataLocation
    relevantMetadata := eventWithoutNetwork.relevantMetadata
    entityId := eventWithoutNetwork.entityIdHash
    previousEntityHash := eventWithoutNetwork.previousEntityHash }

/-- The body `notifyDesmos` POSTs to a consumer callback
(`subscription.service.ts:329-333,368`): the event with `network` stripped. -/
def desmosNotificationBody (e : DomeEvent) : DomeEvent :=
  stripNetworkParameter e

/-! ## Environment configuration (`src/config/env.config.ts`) -/

/-- Model of `process.env`. -/
abbrev Env := String → Option String

/-- An environment in which a variable is unset, so defaults apply. -/
def emptyEnv : Env := fun _ => none

/-- Model of `getEnvInt(key, defaultValue)` (`env.config.ts`): unset → default, set to a
non-integer → throw, otherwise the parsed integer. -/
def getEnvInt (env : Env) (key : String) (defaultValue : Int) : Except String Int :=
  match env key with
  | none => .ok defaultValue
  | some value =>
    match value.toInt? with
    | none => .error ("Invalid integer value for " ++ key ++ ": " ++ value)
    | some parsed => .ok parsed

/-- Configuration `envConfig.replication.delayMs = getEnvInt('REPLICATION_DELAY_MS', 15000)`. -/
def replicationDelayMs (env : Env) : Except String Int :=
  getEnvInt env "REPLICATION_DELAY_MS" 15000

/-- Configuration `envConfig.retry.maxAttempts = getEnvInt('MAX_RETRY_ATTEMPTS', 3)`. -/
def retryMaxAttempts (env : Env) : Except String Int :=
  getEnvInt env "MAX_RETRY_ATTEMPTS" 3

/-! ## Adapter registry (`src/config/adapters.config.ts`) -/

/-- Model of `getAdapterChainId(name)` (`adapters.config.ts:44-54`): the `<NAME>_CHAIN_ID`
environment variable, falling back to the adapter name (with a console warning)
when it is not configured.  The returned `Bool` records whether the fallback
warning was emitted. -/
def getAdapterChainId (env : Env) (name : String) : String × Bool :=
  match env (jsToUpper name ++ "_CHAIN_ID") with
  | none => (name, true)
  | some chainId => (chainId, false)

/-! ## Cache (`src/services/cache.service.ts`)

The Redis store is modelled as the set of `(key, member)` pairs held by its SET
values.  `sAdd` is the idempotent set-add, `sIsMember` the membership test.  A
`cacheFail` oracle (part of `Config` below) says which keys' operations throw
(`CacheUnavailable`); a throwing operation performs no mutation. -/

/-- The members of all Redis SETs, as `(key, member)` pairs. -/
abbrev RedisState := List (String × String)

/-- Model of `redis.sAdd(key, member)`: idempotent set-add. -/
def sAdd (st : RedisState) (key member : String) : RedisState :=
  if (key, member) ∈ st then st else (key, member) :: st

/-- Model of `redis.sIsMember(key, member)`. -/
def sIsMember (st : RedisState) (key member : String) : Bool :=
  decide ((key, member) ∈ st)

/-- Constant `NETWORK_PREFIX = 'network:'` (`cache.service.ts:17`): the Redis key for a
network's published-events SET is `network:<name>`, keyed by adapter NAME. -/
def networkKey (network : String) : String :=
  "network:" ++ network

/-- Constant `NOTIFIED_EVENTS_KEY = 'notifiedEvents'` (`cache.service.ts:18`). -/
def NOTIFIED_EVENTS_KEY : String := "notifiedEvents"

/-- Which cache keys currently fail (the per-key availability oracle for the
Redis client). -/
abbrev CacheFail := String → Bool

/-- Model of `markEventPublished(network, globalId)` (`cache.service.ts:26-36`):
`sAdd('network:' + network, globalId)`; a Redis error is re-thrown. -/
def markEventPublished (fail : CacheFail) (st : RedisState)
    (network globalId : String) : Except Unit RedisState :=
  if fail (networkKey network) then .error ()
  else .ok (sAdd st (networkKey network) globalId)

/-- Model of `isEventOnNetwork(network, globalId)` (`cache.service.ts:45-56`):
`sIsMember('network:' + network, globalId)`; a Redis error is re-thrown. -/
def isEventOnNetwork (fail : CacheFail) (st : RedisState)
    (network globalId : String) : Except Unit Bool :=
  if fail (networkKey network) then .error ()
  else .ok (sIsMember st (networkKey network) globalId)

/-- Model of `getMissingNetworks(globalId, allNetworks)` (`cache.service.ts:65-86`): a
sequential loop of `isEventOnNetwork` checks collecting the networks where the
event is absent; the first Redis error aborts the whole computation. -/
def getMissingNetworks (fail : CacheFail) (st : RedisState) (globalId : String) :
    List String → Except Unit (List String)
  | [] => .ok []
  | network :: rest => do
    let exists_ ← isEventOnNetwork fail st network globalId
    let missing ← getMissingNetworks fail st globalId rest
    return if exists_ then missing else network :: missing

/-- Model of `markEventNotified(globalId)` (`cache.service.ts:93-102`). -/
def markEventNotified (fail : CacheFail) (st : RedisState) (globalId : String) :
    Except Unit RedisState :=
  if fail NOTIFIED_EVENTS_KEY then .error ()
  else .ok (sAdd st NOTIFIED_EVENTS_KEY globalId)

/-- Model of `isEventNotified(globalId)` (`cache.service.ts:110-120`). -/
def isEventNotified (fail : CacheFail) (st : RedisState) (globalId : String) :
    Except Unit Bool :=
  if fail NOTIFIED_EVENTS_KEY then .error ()
  else .ok (sIsMember st NOTIFIED_EVENTS_KEY globalId)

/-! ## Subscription registry (`src/services/subscription.service.ts`) -/

/-- An entry of the in-process `activeSubscriptions` map
(`subscription.service.ts:162-170`). -/
structure Subscription where
  id : String
  eventTypes : List String
  callbackUrl : String
  deriving Repr, DecidableEq

/-- The per-subscription filter of `handleDesmosNotification`
(`subscription.service.ts:316-318`):
`sub.eventTypes.length === 0 || sub.eventTypes.includes(event.eventType)`. -/
def subscriptionMatches (sub : Subscription) (eventType : String) : Bool :=
  sub.eventTypes.length == 0 || sub.eventTypes.contains eventType

/-- The `matchingSubscriptions` filter (`subscription.service.ts:316-318`). -/
def matchingSubscriptions (subs : List Subscription) (e : DomeEvent) :
    List Subscription :=
  subs.filter (fun sub => subscriptionMatches sub e.eventType)

/-! ## Adapter HTTP client (`src/services/adapter.client.ts`) -/

/-- An axios failure: either the adapter answered with a non-2xx status
(`AxiosError` with a `response`), or the request failed in transport
(timeout, connection error). -/
inductive HttpFailure where
  | status (code : Nat) (body : String) : HttpFailure
  | transport (msg : String) : HttpFailure
  deriving Repr, DecidableEq

/-- What one HTTP attempt against an adapter endpoint does: succeed with the
adapter's numeric timestamp, or throw an `HttpFailure`.  Indexed by the attempt
number (1-based). -/
abbrev AttemptOracle := Nat → Except HttpFailure Nat

/-- The loop body of `retryCall` (`adapter.client.ts:43-77`), with `fuel`
the attempts remaining out of `maxAttempts`.  Returns the final outcome
together with the number of attempts actually made.  The source retries after
EVERY caught error — it never inspects the failure's status code. -/
def retryCallFrom (attemptResult : AttemptOracle) (attempt : Nat) :
    (fuel : Nat) → Except HttpFailure Nat × Nat
  | 0 => (.error (.transport "null"), 0)
  | fuel + 1 =>
    match attemptResult attempt with
    | .ok t => (.ok t, 1)
    | .error lastError =>
      match fuel with
      | 0 => (.error lastError, 1)
      | fuel' + 1 =>
        let (result, n) := retryCallFrom attemptResult (attempt + 1) (fuel' + 1)
        (result, n + 1)

/-- Model of `retryCall(fn, adapterName, operation, maxAttempts)`
(`adapter.client.ts:43-77`): up to `maxAttempts` attempts (default 3), waiting
`retryDelayMs * attempt` between attempts, throwing the last error when the
budget is exhausted.  The second component is the number of attempts made. -/
def retryCall (attemptResult : AttemptOracle) (maxAttempts : Nat) :
    Except HttpFailure Nat × Nat :=
  retryCallFrom attemptResult 1 maxAttempts

/-- Model of `error.response?.data || error.message` (`adapter.client.ts:141-143`). -/
def failureMessage : HttpFailure → String
  | .status _ body => body
  | .transport msg => msg

/-- The per-adapter entry of the aggregated publication response
(`event.model.ts`, `PublishEventResult`). -/
structure PublishEventResult where
  adapter : String
  success : Bool
  timestamp : Option Nat := none
  error : Option String := none
  deriving Repr, DecidableEq

/-- Model of `AdapterClient.publishEvent(request)` (`adapter.client.ts:115-151`): wraps
the retried POST; on success returns `{adapter, success: true, timestamp}`, on
any caught error `{adapter, success: false, error}` — it never throws into the
caller. -/
def adapterPublishEvent (name : String) (attemptResult : AttemptOracle)
    (maxAttempts : Nat) : PublishEventResult :=
  match (retryCall attemptResult maxAttempts).1 with
  | .ok result => { adapter := name, success := true, timestamp := some result }
  | .error e => { adapter := name, success := false, error := some (failureMessage e) }

/-! ## Engine configuration and observable actions -/

/-- The fixed collaborators of one engine run: the configured adapter names
(`adapterPool` / `getAdapterNames()`), the Redis availability oracle, and the
outcome of a replication publish to each network (`true` iff the adapter
client's `publishEvent` resolves with `success: true`). -/
structure Config where
  adapters : List String
  cacheFail : CacheFail
  pubOk : String → Bool

/-- The externally observable effects of the replication flow, in program
order.  `wait` would be an awaited timer (`setTimeout`); the constructor exists
so that "the handler never waits" is statable. -/
inductive Action where
  | markPublished (network globalId : String) : Action
  | publish (network : String) : Action
  | wait (ms : Nat) : Action
  | cacheError : Action
  deriving Repr, DecidableEq, BEq

/-! ## Replicator (`src/services/replication.service.ts`) -/

/-- One branch of the `replicateToNetworks` fan-out
(`replication.service.ts:296-333`): look the target up in the pool (a missing
adapter is only warned about), POST the publish request, and on success mark the
target network in the cache; a thrown cache error is caught by the per-target
`try/catch` and only logged. -/
def replicateTarget (cfg : Config) (globalId : String)
    (acc : RedisState × List Action) (network : String) : RedisState × List Action :=
  let (st, tr) := acc
  if cfg.adapters.contains network then
    let tr := tr ++ [Action.publish network]
    if cfg.pubOk network then
      match markEventPublished cfg.cacheFail st network globalId with
      | .ok st' => (st', tr ++ [Action.markPublished network globalId])
      | .error _ => (st, tr ++ [Action.cacheError])
    else (st, tr)
  else (st, tr)

/-- Model of `replicateToNetworks(event, targetNetworks)`
(`replication.service.ts:273-336`): early-return on an empty target list,
re-extract the global id (a throw propagates to the caller), strip `network`,
build the publish request, and fan out to every target. -/
def replicateToNetworks (cfg : Config) (e : DomeEvent) (parse : URLParse)
    (targetNetworks : List String) (st : RedisState) :
    Except ExtractError (RedisState × List Action) :=
  if targetNetworks.isEmpty then .ok (st, [])
  else
    match extractGlobalId e.dataLocation parse with
    | .error err => .error err
    | .ok globalId => .ok (targetNetworks.foldl (replicateTarget cfg globalId) (st, []))

/-- Model of `handleIncomingEvent(event, sourceNetwork)`
(`replication.service.ts:224-265`): extract the global id, mark the source
network, compute the missing networks, and replicate to them — with the whole
body inside one `try/catch` whose handler only logs, so every branch resolves
(`Except.ok`).  There is no timer anywhere in the body. -/
def handleIncomingEvent (cfg : Config) (e : DomeEvent) (parse : URLParse)
    (sourceNetwork : String) (st : RedisState) :
    Except String (RedisState × List Action) :=
  match extractGlobalId e.dataLocation parse with
  | .error _ => .ok (st, [])
  | .ok globalId =>
    match markEventPublished cfg.cacheFail st sourceNetwork globalId with
    | .error _ => .ok (st, [Action.cacheError])
    | .ok st1 =>
      let tr1 := [Action.markPublished sourceNetwork globalId]
      match getMissingNetworks cfg.cacheFail st1 globalId cfg.adapters with
      | .error _ => .ok (st1, tr1 ++ [Action.cacheError])
      | .ok missingNetworks =>
        if missingNetworks.isEmpty then .ok (st1, tr1)
        else
          match replicateToNetworks cfg e parse missingNetworks st1 with
          | .error _ => .ok (st1, tr1)
          | .ok (st2, tr2) => .ok (st2, tr1 ++ tr2)

/-- The fire-and-forget dispatch site
(`subscribe.controller.ts:90` — `handleIncomingEvent(...).catch(logError)`):
a rejection is logged and discarded. -/
def dispatchIncoming (cfg : Config) (e : DomeEvent) (parse : URLParse)
    (sourceNetwork : String) (st : RedisState) : RedisState × List Action :=
  match handleIncomingEvent cfg e parse sourceNetwork st with
  | .ok r => r
  | .error _ => (st, [])

/-- Runs `n` consecutive `handleIncomingEvent` invocations for the same
`(event, sourceNetwork)`, threading the cache and concatenating the traces. -/
def runIncomingN (cfg : Config) (e : DomeEvent) (parse : URLParse)
    (sourceNetwork : String) : Nat → RedisState → RedisState × List Action
  | 0, st => (st, [])
  | n + 1, st =>
    let (st1, tr1) := dispatchIncoming cfg e parse sourceNetwork st
    let (st2, tr2) := runIncomingN cfg e parse sourceNetwork n st1
    (st2, tr1 ++ tr2)

/-- Whether an action is a `Publish` call to the given network. -/
def isPublishTo (network : String) : Action → Bool
  | .publish n => n == network
  | _ => false

/-- How many `Publish` calls a trace makes to a given network. -/
def countPublishes (network : String) (tr : List Action) : Nat :=
  tr.countP (isPublishTo network)

/-! ## Consumer notification (`src/services/subscription.service.ts`) -/

/-- One outbound `POST` to a consumer callback, as issued by `notifyDesmos`.
`delivered` records the outcome of the POST, which is only logged
(`notifyDesmos` catches its own errors). -/
structure Post where
  subId : String
  callbackUrl : String
  globalId : String
  body : DomeEvent
  delivered : Bool
  deriving Repr, DecidableEq

/-- Model of `handleDesmosNotification(event)` (`subscription.service.ts:293-351`):
extract the global id, stop at the `isEventNotified` gate, select matching
subscriptions, strip `network`, settle all POSTs (`Promise.allSettled`), then
`markEventNotified` unconditionally.  The whole body is inside one `try/catch`
whose handler only logs, so every branch resolves (`Except.ok`). -/
def handleDesmosNotification (cfg : Config) (subs : List Subscription)
    (postOk : String → Bool) (e : DomeEvent) (parse : URLParse)
    (st : RedisState) (posts : List Post) :
    Except String (RedisState × List Post) :=
  match extractGlobalId e.dataLocation parse with
  | .error _ => .ok (st, posts)
  | .ok globalId =>
    match isEventNotified cfg.cacheFail st globalId with
    | .error _ => .ok (st, posts)
    | .ok alreadyNotified =>
      if alreadyNotified then .ok (st, posts)
      else
        let matching := matchingSubscriptions subs e
        if matching.isEmpty then .ok (st, posts)
        else
          let body := stripNetworkParameter e
          let newPosts := matching.map (fun sub =>
            { subId := sub.id, callbackUrl := sub.callbackUrl, globalId := globalId
              body := body, delivered := postOk sub.callbackUrl : Post })
          match markEventNotified cfg.cacheFail st globalId with
          | .ok st' => .ok (st', posts ++ newPosts)
          | .error _ => .ok (st, posts ++ newPosts)

/-- The fire-and-forget dispatch site
(`subscribe.controller.ts:122` — `handleDesmosNotification(event).catch(...)`). -/
def dispatchDesmos (cfg : Config) (subs : List Subscription)
    (postOk : String → Bool) (e : DomeEvent) (parse : URLParse)
    (st : RedisState) (posts : List Post) : RedisState × List Post :=
  match handleDesmosNotification cfg subs postOk e parse st posts with
  | .ok r => r
  | .error _ => (st, posts)

/-- A sequence of `handleDesmosNotification` invocations, threading the cache
and the POST log. -/
def runDesmosCalls (cfg : Config) (subs : List Subscription)
    (postOk : String → Bool) :
    List (DomeEvent × URLParse) → RedisState → List Post → RedisState × List Post
  | [], st, posts => (st, posts)
  | (e, parse) :: rest, st, posts =>
    let (st1, posts1) := dispatchDesmos cfg subs postOk e parse st posts
    runDesmosCalls cfg subs postOk rest st1 posts1

/-- How many POSTs a log contains to a given subscription for a given
global id. -/
def postCount (posts : List Post) (subId globalId : String) : Nat :=
  (posts.filter (fun p => p.subId == subId && p.globalId == globalId)).length

/-! ## Publisher (`src/services/publication.service.ts:25-118`) -/

/-- The adapter client's publish verdicts for one fan-out, per adapter name:
`.ok timestamp` when the adapter accepted, `.error message` otherwise (the
client never throws — `adapter.client.ts:115-151`). -/
abbrev PublishOutcome := String → Except String Nat

/-- The result object the adapter client resolves with
(`adapter.client.ts:135-150`). -/
def clientPublishResult (outcome : PublishOutcome) (name : String) :
    PublishEventResult :=
  match outcome name with
  | .ok t => { adapter := name, success := true, timestamp := some t }
  | .error msg => { adapter := name, success := false, error := some msg }

/-- The `Promise.allSettled` fan-out of `publishEventToAllAdapters`
(`publication.service.ts:52-70`): every adapter is invoked; on success the
cache is marked under the adapter NAME, and a thrown cache error is caught and
logged without downgrading the per-adapter result. -/
def publishFanout (cfg : Config) (outcome : PublishOutcome) (globalId : String) :
    List String → RedisState → List PublishEventResult × RedisState
  | [], st => ([], st)
  | name :: rest, st =>
    let result := clientPublishResult outcome name
    let st1 :=
      if result.success then
        match markEventPublished cfg.cacheFail st name globalId with
        | .ok st' => st'
        | .error _ => st
      else st
    let (results, st2) := publishFanout cfg outcome globalId rest st1
    (result :: results, st2)

/-- Aggregated response of the publisher (`event.model.ts`,
`PublishEventResponse`). -/
structure PublishEventResponse where
  success : Bool
  results : List PublishEventResult
  errors : List String
  deriving Repr, DecidableEq

/-- Model of `publishEventToAllAdapters(request)` (`publication.service.ts:25-118`):
extract the global id (a throw propagates to the controller), fan out to every
configured adapter without short-circuiting, and aggregate with
`success = results.some(r => r.success)`. -/
def publishEventToAllAdapters (cfg : Config) (outcome : PublishOutcome)
    (request : PublishEventRequest) (parse : URLParse) (st : RedisState) :
    Except ExtractError (PublishEventResponse × RedisState) :=
  match extractGlobalId request.dataLocation parse with
  | .error err => .error err
  | .ok globalId =>
    let (results, st') := publishFanout cfg outcome globalId cfg.adapters st
    let errors := (results.filter (fun r => !r.success)).map
      (fun r => r.adapter ++ ": " ++ r.error.getD "undefined")
    .ok ({ success := results.any (·.success), results := results, errors := errors }, st')

/-! ## HTTP controllers -/

/-- The `publishEvent` controller (`publish.controller.ts:17-64`): `201` with the
per-adapter list when at least one adapter succeeded, `500` when all failed,
and `500` when the service threw (e.g. `MissingGlobalId`). -/
def publishEventController (cfg : Config) (outcome : PublishOutcome)
    (request : PublishEventRequest) (parse : URLParse) (st : RedisState) :
    Nat × RedisState :=
  match publishEventToAllAdapters cfg outcome request parse st with
  | .error _ => (500, st)
  | .ok (response, st') => (if response.success then 201 else 500, st')

/-- The `handleEventNotification` controller (`subscribe.controller.ts:68-103`):
`400` when the route's `:network` parameter is missing, otherwise dispatch the
replication handler fire-and-forget and acknowledge `200` immediately —
the status never depends on the handler's outcome. -/
def handleEventNotification (cfg : Config) (networkParam : Option String)
    (e : DomeEvent) (parse : URLParse) (st : RedisState) :
    Nat × RedisState × List Action :=
  match networkParam with
  | none => (400, st, [])
  | some network =>
    let (st', tr) := dispatchIncoming cfg e parse network st
    (200, st', tr)

/-- The `handleDesmosEventNotification` controller
(`subscribe.controller.ts:111-135`): dispatch fire-and-forget, acknowledge
`200` immediately. -/
def handleDesmosEventNotification (cfg : Config) (subs : List Subscription)
    (postOk : String → Bool) (e : DomeEvent) (parse : URLParse)
    (st : RedisState) (posts : List Post) : Nat × RedisState × List Post :=
  let (st', posts') := dispatchDesmos cfg subs postOk e parse st posts
  (200, st', posts')

/-! ## Concrete fixtures used by counterexamples and witnesses -/

/-- An environment configuring `HASHNET_CHAIN_ID=1` (as in the repository's
tests: hashnet has chain id `1`). -/
def envHashnet1 : Env :=
  fun k => if k = "HASHNET_CHAIN_ID" then some "1" else none

/-- A consumer subscription for every event type, as the repository's API
documentation describes (`eventTypes: ["*"]`). -/
def wildcardSub : Subscription :=
  { id := "sub-1", eventTypes := ["*"], callbackUrl := "http://desmos-server/webhook" }

/-- A representative incoming adapter event. -/
def evProduct : DomeEvent :=
  { id := 1, timestamp := 1699200000000, eventType := "ProductAdded",
    dataLocation := "https://example.com/product?hl=0xccc",
    entityIdHash := "0xe", previousEntityHash := "0x0",
    relevantMetadata := ["sbx"], network := some "hashnet" }

/-- The URL parse of `evProduct.dataLocation`. -/
def parseProduct : URLParse := .valid [("hl", "0xccc")]

/-- Two healthy adapters, reliable cache, all publishes succeed. -/
def cfgAllOk : Config :=
  { adapters := ["hashnet", "alastria"], cacheFail := fun _ => false,
    pubOk := fun _ => true }

/-- Two adapters, reliable cache, every replication publish fails. -/
def cfgPubFail : Config :=
  { adapters := ["hashnet", "alastria"], cacheFail := fun _ => false,
    pubOk := fun _ => false }

/-! ## C1 — the replication handler never waits before fanning out -/

/-- C1 (code bug): `envConfig.replication.delayMs` defaults to 15 000 ms, and the
repository's docs and test plan (U5/I6) require `handleIncomingEvent` to wait
that long after marking the source before computing the missing networks — but
the handler's trace marks the source and immediately publishes to the missing
network: there is no `wait` action anywhere between (or around) them.  Evaluated
at event `hl=0xccc` arriving from `hashnet` with `alastria` missing. -/
theorem handleIncomingEvent_has_no_replication_delay :
    replicationDelayMs emptyEnv = .ok 15000 ∧
    (dispatchIncoming cfgAllOk evProduct parseProduct "hashnet" []).2 =
      [Action.markPublished "hashnet" "0xccc", Action.publish "alastria",
       Action.markPublished "alastria" "0xccc"] ∧
    (∀ d, Action.wait d ∉ (dispatchIncoming cfgAllOk evProduct parseProduct "hashnet" []).2) := by
  refine ⟨by decide, by decide, ?_⟩
  intro d
  have h : (dispatchIncoming cfgAllOk evProduct parseProduct "hashnet" []).2 =
      [Action.markPublished "hashnet" "0xccc", Action.publish "alastria",
       Action.markPublished "alastria" "0xccc"] := by decide
  rw [h]
  simp

/-! ## C2 — `"*"` in a consumer subscription's `eventTypes` does not match -/

/-- C2 (code bug): the matcher of `handleDesmosNotification` selects a
subscription only when `eventTypes` is empty or literally contains the event's
type; a subscription with `eventTypes = ["*"]` — which the repository's API
documentation says subscribes to all events — matches nothing but the literal
type `"*"`, so a `ProductAdded` event selects no subscription. -/
theorem wildcard_subscription_never_matches :
    "*" ∈ wildcardSub.eventTypes ∧
    wildcardSub.eventTypes ≠ [] ∧
    subscriptionMatches wildcardSub "ProductAdded" = false ∧
    matchingSubscriptions [wildcardSub] evProduct = [] := by
  decide

/-! ## C6 — the published-events cache key is `network:<name>`, not
`publishedEvents:<chainId>` -/

/-- C6 (code bug): `markEventPublished('hashnet', '0xtest123')` writes the
global id under the key `network:hashnet` — the adapter NAME with the
`network:` literal — and `isEventOnNetwork` reads that same key; the configured
chain id (`getAdapterChainId` yields `"1"` without fallback when
`HASHNET_CHAIN_ID=1`) is never consulted, so the key differs from the
documented `publishedEvents:1`. -/
theorem markEventPublished_keys_by_name_not_chainId :
    networkKey "hashnet" = "network:hashnet" ∧
    markEventPublished (fun _ => false) [] "hashnet" "0xtest123" =
      .ok [("network:hashnet", "0xtest123")] ∧
    isEventOnNetwork (fun _ => false) [("network:hashnet", "0xtest123")]
      "hashnet" "0xtest123" = .ok true ∧
    getAdapterChainId envHashnet1 "hashnet" = ("1", false) ∧
    networkKey "hashnet" ≠ "publishedEvents:" ++ "1" := by
  decide

/-! ## C7 — 4xx adapter responses are retried like any other failure -/

/-- C7 counterexample: with an adapter that rejects every attempt with HTTP 400,
`retryCall` still makes all 3 attempts (the default budget) — a 4xx failure is
NOT terminal, contradicting the claim that no further attempts are made. -/
theorem retryCall_retries_after_4xx :
    (fun _ => .error (.status 400 "Bad Request") : AttemptOracle) 1 =
      .error (.status 400 "Bad Request") ∧
    (retryCall (fun _ => .error (.status 400 "Bad Request")) 3).2 = 3 := by
  decide

/-- Every run of the retry loop with all attempts failing exhausts the budget
and returns the last error. -/
theorem retryCallFrom_all_fail (attemptResult : AttemptOracle)
    (hfail : ∀ i, ∃ e, attemptResult i = .error e) :
    ∀ fuel attempt, retryCallFrom attemptResult attempt (fuel + 1) =
      (attemptResult (attempt + fuel), fuel + 1) := by
  intro fuel
  induction fuel with
  | zero =>
    intro attempt
    obtain ⟨e, he⟩ := hfail attempt
    simp [retryCallFrom, he]
  | succ fuel ih =>
    intro attempt
    obtain ⟨e, he⟩ := hfail attempt
    have h2 : attempt + 1 + fuel = attempt + (fuel + 1) := by omega
    simp [retryCallFrom, he, ih (attempt + 1), h2]

/-- C7 amended: the retry budget (`maxAttempts`, default 3) applies uniformly to
EVERY failed attempt — transport errors, timeouts, 5xx and 4xx alike; when all
attempts fail, exactly `maxAttempts` attempts are made, the last error is
returned, and the failure surfaces as `success = false` in the per-adapter
result. -/
theorem retryCall_budget_uniform_over_failures (name : String)
    (attemptResult : AttemptOracle) (maxAttempts : Nat)
    (hpos : 0 < maxAttempts)
    (hfail : ∀ i, ∃ e, attemptResult i = .error e) :
    retryMaxAttempts emptyEnv = .ok 3 ∧
    (retryCall attemptResult maxAttempts).2 = maxAttempts ∧
    (retryCall attemptResult maxAttempts).1 = attemptResult maxAttempts ∧
    (adapterPublishEvent name attemptResult maxAttempts).success = false := by
  obtain ⟨k, rfl⟩ : ∃ k, maxAttempts = k + 1 :=
    ⟨maxAttempts - 1, (Nat.succ_pred_eq_of_pos hpos).symm⟩
  have h := retryCallFrom_all_fail attemptResult hfail k 1
  have h1 : (1 : Nat) + k = k + 1 := Nat.add_comm 1 k
  refine ⟨by decide, ?_, ?_, ?_⟩
  · simp [retryCall, h]
  · simp [retryCall, h, h1]
  · obtain ⟨e, he⟩ := hfail (k + 1)
    simp [adapterPublishEvent, retryCall, h, h1, he]

/-- Witness for the amended C7 theorem: a transport failure on every attempt,
budget 3: three attempts, last error surfaced, `success = false`. -/
theorem retryCall_budget_uniform_over_failures_witness :
    retryMaxAttempts emptyEnv = .ok 3 ∧
    (retryCall (fun _ => .error (.transport "Network timeout")) 3).2 = 3 ∧
    (retryCall (fun _ => .error (.transport "Network timeout")) 3).1 =
      (fun _ => .error (.transport "Network timeout") : AttemptOracle) 3 ∧
    (adapterPublishEvent "hashnet" (fun _ => .error (.transport "Network timeout")) 3).success
      = false :=
  retryCall_budget_uniform_over_failures "hashnet"
    (fun _ => .error (.transport "Network timeout")) 3 (by decide)
    (fun _ => ⟨.transport "Network timeout", rfl⟩)

/-! ## C8 — `stripNetworkParameter` is idempotent and outbound bodies carry no
`network` field -/

/-- C8: stripping the network parameter twice equals stripping it once, and
neither the replication publish request sent to an adapter nor the notification
body POSTed to a consumer callback has a `network` field, for every input
event. -/
theorem stripNetwork_idempotent_and_outbound_has_no_network :
    ∀ e : DomeEvent,
      stripNetworkParameter (stripNetworkParameter e) = stripNetworkParameter e ∧
      "network" ∉ eventBodyKeys (desmosNotificationBody e) ∧
      "network" ∉ publishRequestKeys (replicationPublishRequest e) := by
  intro e
  rcases e with ⟨i, t, et, dl, eh, ph, rm, pa, aa, og, nw⟩
  refine ⟨rfl, ?_, ?_⟩
  · cases pa <;> cases aa <;> cases og <;>
      simp [eventBodyKeys, desmosNotificationBody, stripNetworkParameter]
  · simp [publishRequestKeys, replicationPublishRequest, stripNetworkParameter]

/-! ## C9 — `extractGlobalId` round trip and throw conditions -/

/-- The `hl` query parameter of a parsed `dataLocation`. -/
def hlParam : URLParse → Option String
  | .invalid => none
  | .valid query => searchParamsGet query "hl"

/-- Value of `jsTrim` at the empty string. -/
theorem jsTrim_empty : jsTrim "" = "" := rfl

/-- C9 counterexample: for
`dataLocation = "https://example.com/path?hl=%20"` the `hl` parameter is
present and non-empty (its value is `" "`), yet `extractGlobalId` throws
(`Empty "hl" parameter`, via the `trim` check) — so "throws iff absent, empty,
or invalid URL" is false as stated. -/
theorem extractGlobalId_whitespace_hl_throws :
    hlParam (.valid [("hl", " ")]) = some " " ∧
    (" " : String) ≠ "" ∧
    ("https://example.com/path?hl=%20" : String) ≠ "" ∧
    extractGlobalId "https://example.com/path?hl=%20" (.valid [("hl", " ")]) =
      .error .emptyHl := by
  decide

/-- C9 amended: for every `dataLocation` whose `hl` parameter is present and
not whitespace-only, `extractGlobalId` returns the `hl` value exactly; and it
throws if and only if the `dataLocation` is empty or not a valid URL, the `hl`
parameter is absent, or the `hl` value trims to the empty string (absent,
empty, or whitespace-only). -/
theorem extractGlobalId_round_trip_and_error_spec (d : String) (p : URLParse) :
    (∀ v, hlParam p = some v → v ≠ "" → jsTrim v ≠ "" → d ≠ "" →
      extractGlobalId d p = .ok v) ∧
    ((extractGlobalId d p).isOk = false ↔
      d = "" ∨ p = .invalid ∨ hlParam p = none ∨
        ∃ v, hlParam p = some v ∧ jsTrim v = "") := by
  constructor
  · intro v hv hne htrim hd
    cases p with
    | invalid => simp [hlParam] at hv
    | valid q =>
      simp only [hlParam] at hv
      simp [extractGlobalId, hd, hv, hne, htrim]
  · cases p with
    | invalid =>
      by_cases hd : d = "" <;> simp [extractGlobalId, hlParam, hd, Except.isOk, Except.toBool]
    | valid q =>
      by_cases hd : d = ""
      · simp [extractGlobalId, hd, Except.isOk, Except.toBool]
      · cases hq : searchParamsGet q "hl" with
        | none => simp [extractGlobalId, hlParam, hd, hq, Except.isOk, Except.toBool]
        | some v =>
          by_cases hv : v = ""
          · subst hv
            simp [extractGlobalId, hlParam, hd, hq, Except.isOk, Except.toBool, jsTrim_empty]
          · by_cases ht : jsTrim v = "" <;>
              simp [extractGlobalId, hlParam, hd, hq, hv, ht, Except.isOk, Except.toBool]

/-- Witness for the amended C9 theorem at concrete inputs: a well-formed
`dataLocation` round-trips its `hl` value, and an invalid URL throws. -/
theorem extractGlobalId_round_trip_witness :
    extractGlobalId "https://example.com/p?hl=0xabc" (.valid [("hl", "0xabc")]) =
      .ok "0xabc" ∧
    (extractGlobalId "not-a-valid-url" .invalid).isOk = false :=
  ⟨(extractGlobalId_round_trip_and_error_spec "https://example.com/p?hl=0xabc"
      (.valid [("hl", "0xabc")])).1 "0xabc" (by decide) (by decide) (by decide)
      (by decide),
   (extractGlobalId_round_trip_and_error_spec "not-a-valid-url" .invalid).2.mpr
     (Or.inr (Or.inl rfl))⟩

/-! ## C5 — one result per adapter, no short-circuit, partial-success
semantics -/

/-- The adapter client stamps its own name on the result it resolves with. -/
theorem clientPublishResult_adapter (outcome : PublishOutcome) (name : String) :
    (clientPublishResult outcome name).adapter = name := by
  cases h : outcome name <;> simp [clientPublishResult, h]

/-- The adapter client's result succeeds exactly when the (retried) POST
resolved. -/
theorem clientPublishResult_success (outcome : PublishOutcome) (name : String) :
    (clientPublishResult outcome name).success = (outcome name).isOk := by
  cases h : outcome name <;> simp [clientPublishResult, h, Except.isOk, Except.toBool]

/-- The fan-out collects exactly the per-adapter client results, in registry
order, regardless of the interleaved cache marking. -/
theorem publishFanout_results (cfg : Config) (outcome : PublishOutcome)
    (globalId : String) :
    ∀ (names : List String) (st : RedisState),
      (publishFanout cfg outcome globalId names st).1 =
        names.map (clientPublishResult outcome) := by
  intro names
  induction names with
  | nil => intro st; simp [publishFanout]
  | cons n rest ih => intro st; simp [publishFanout, ih]

/-- C5: `publishEventToAllAdapters` returns exactly one result entry per
configured adapter (in order, each carrying that adapter's own outcome — no
short-circuit on failure), its overall `success` is true iff at least one
adapter result succeeded, and the publish endpoint answers `201` when at least
one adapter succeeded and `500` when all failed. -/
theorem publishToAll_one_result_per_adapter_and_partial_success
    (cfg : Config) (outcome : PublishOutcome) (request : PublishEventRequest)
    (parse : URLParse) (st : RedisState) (globalId : String)
    (hgid : extractGlobalId request.dataLocation parse = .ok globalId) :
    ∃ response st',
      publishEventToAllAdapters cfg outcome request parse st = .ok (response, st') ∧
      response.results = cfg.adapters.map (clientPublishResult outcome) ∧
      response.results.map PublishEventResult.adapter = cfg.adapters ∧
      (response.success = true ↔ ∃ r ∈ response.results, r.success = true) ∧
      (publishEventController cfg outcome request parse st).1 =
        (if response.success then 201 else 500) := by
  unfold publishEventController publishEventToAllAdapters
  rw [hgid]
  refine ⟨_, _, rfl, ?_, ?_, ?_, rfl⟩
  · exact publishFanout_results cfg outcome globalId cfg.adapters st
  · rw [publishFanout_results cfg outcome globalId cfg.adapters st, List.map_map]
    have : (PublishEventResult.adapter ∘ clientPublishResult outcome) = id := by
      funext a
      simp [clientPublishResult_adapter]
    rw [this, List.map_id]
  · simp only [List.any_eq_true]

/-- The publish fixture of scenario S2: `hashnet` times out, `alastria`
accepts with timestamp 1234. -/
def outcomeS2 : PublishOutcome :=
  fun a => if a = "alastria" then .ok 1234 else .error "Network timeout"

/-- A well-formed publish request whose `dataLocation` carries `hl=0xabc`. -/
def reqAbc : PublishEventRequest :=
  { eventType := "ProductAdded",
    dataLocation := "https://example.com/p?hl=0xabc",
    relevantMetadata := ["sbx"], entityId := "0xe",
    previousEntityHash := "0x0" }

/-- Witness for C5 at the S2 fixture: one adapter fails, one succeeds. -/
theorem publishToAll_witness :
    ∃ response st',
      publishEventToAllAdapters cfgAllOk outcomeS2 reqAbc
        (.valid [("hl", "0xabc")]) [] = .ok (response, st') ∧
      response.results = cfgAllOk.adapters.map (clientPublishResult outcomeS2) ∧
      response.results.map PublishEventResult.adapter = cfgAllOk.adapters ∧
      (response.success = true ↔ ∃ r ∈ response.results, r.success = true) ∧
      (publishEventController cfgAllOk outcomeS2 reqAbc
        (.valid [("hl", "0xabc")]) []).1 =
        (if response.success then 201 else 500) :=
  publishToAll_one_result_per_adapter_and_partial_success cfgAllOk outcomeS2
    reqAbc (.valid [("hl", "0xabc")]) [] "0xabc" (by decide)

/-! ## C10 — webhook handlers never reject; webhook routes acknowledge 200 -/

/-- C10: for every input and every failure behaviour of the cache, the URL
parser, the adapter clients, and the consumer POSTs, both asynchronous webhook
handlers resolve (`Except.ok`) — every internal failure is caught inside the
handler — and the webhook controllers acknowledge `200` (given the `:network`
route parameter for the adapter-events webhook), so the fire-and-forget
dispatch cannot produce an unhandled rejection. -/
theorem webhook_handlers_never_reject (cfg : Config) (subs : List Subscription)
    (postOk : String → Bool) (e : DomeEvent) (parse : URLParse)
    (sourceNetwork : String) (st : RedisState) (posts : List Post)
    (networkParam : Option String) :
    (handleIncomingEvent cfg e parse sourceNetwork st).isOk = true ∧
    (handleDesmosNotification cfg subs postOk e parse st posts).isOk = true ∧
    (networkParam.isSome = true →
      (handleEventNotification cfg networkParam e parse st).1 = 200) ∧
    (handleDesmosEventNotification cfg subs postOk e parse st posts).1 = 200 := by
  refine ⟨?_, ?_, ?_, ?_⟩
  · unfold handleIncomingEvent
    repeat' split
    all_goals rfl
  · unfold handleDesmosNotification
    repeat' split
    all_goals (first | rfl | (dsimp only; split <;> rfl))
  · intro hp
    cases networkParam with
    | none => simp at hp
    | some network => simp [handleEventNotification]
  · simp [handleDesmosEventNotification]

/-- Witness for C10 at a concrete webhook input. -/
theorem webhook_handlers_never_reject_witness :
    (handleIncomingEvent cfgAllOk evProduct parseProduct "hashnet" []).isOk = true ∧
    (handleEventNotification cfgAllOk (some "hashnet") evProduct parseProduct []).1
      = 200 :=
  ⟨(webhook_handlers_never_reject cfgAllOk [wildcardSub] (fun _ => true) evProduct
      parseProduct "hashnet" [] [] (some "hashnet")).1,
   (webhook_handlers_never_reject cfgAllOk [wildcardSub] (fun _ => true) evProduct
      parseProduct "hashnet" [] [] (some "hashnet")).2.2.1 rfl⟩

/-! ## Cache and fan-out lemmas -/

/-- The pair added by `sAdd` is in the result. -/
theorem mem_sAdd_self (st : RedisState) (k m : String) : (k, m) ∈ sAdd st k m := by
  unfold sAdd
  split
  · assumption
  · exact List.mem_cons_self _ _

/-- Existing members persist under `sAdd`. -/
theorem mem_sAdd_of_mem {st : RedisState} {k m : String} (k' m' : String)
    (h : (k, m) ∈ st) : (k, m) ∈ sAdd st k' m' := by
  unfold sAdd
  split
  · exact h
  · exact List.mem_cons_of_mem _ h

/-- New members of `sAdd st k' m'` are old members or the added pair. -/
theorem mem_of_mem_sAdd {st : RedisState} {k m k' m' : String}
    (h : (k, m) ∈ sAdd st k' m') : (k, m) ∈ st ∨ (k = k' ∧ m = m') := by
  unfold sAdd at h
  split at h
  · exact Or.inl h
  · rcases List.mem_cons.mp h with h | h
    · right
      exact ⟨congrArg Prod.fst h, congrArg Prod.snd h⟩
    · exact Or.inl h

/-- Boolean `sIsMember` decides membership. -/
theorem sIsMember_eq_true_iff {st : RedisState} {k m : String} :
    sIsMember st k m = true ↔ (k, m) ∈ st := by
  simp [sIsMember]

/-- A successful `markEventPublished` is exactly the `sAdd` under the
`network:<name>` key. -/
theorem markEventPublished_ok {fail : CacheFail} {st : RedisState}
    {network globalId : String} {st' : RedisState}
    (h : markEventPublished fail st network globalId = .ok st') :
    st' = sAdd st (networkKey network) globalId := by
  unfold markEventPublished at h
  split at h
  · exact absurd h (by simp)
  · exact (Except.ok.inj h).symm

/-- Bind of an `Except` success. -/
theorem exceptBind_ok {ε α β : Type} (a : α) (f : α → Except ε β) :
    (Except.ok a >>= f) = f a := rfl

/-- Bind of an `Except` failure. -/
theorem exceptBind_error {ε α β : Type} (u : ε) (f : α → Except ε β) :
    ((Except.error u : Except ε α) >>= f) = .error u := rfl

/-- With an available cache, `getMissingNetworks` returns exactly the networks
whose `network:<name>` set does not contain the global id. -/
theorem getMissingNetworks_reliable (fail : CacheFail) (hf : ∀ k, fail k = false)
    (st : RedisState) (globalId : String) :
    ∀ nets : List String,
      getMissingNetworks fail st globalId nets =
        .ok (nets.filter (fun n => !(sIsMember st (networkKey n) globalId))) := by
  intro nets
  induction nets with
  | nil => simp [getMissingNetworks]
  | cons n rest ih =>
    cases hb : sIsMember st (networkKey n) globalId <;>
      simp [getMissingNetworks, isEventOnNetwork, hf, ih, hb, List.filter_cons,
        exceptBind_ok]

/-- A successful `getMissingNetworks` result selects from the checked
networks. -/
theorem getMissingNetworks_ok_sublist {fail : CacheFail} {st : RedisState}
    {globalId : String} :
    ∀ {nets l : List String}, getMissingNetworks fail st globalId nets = .ok l →
      l.Sublist nets := by
  intro nets
  induction nets with
  | nil =>
    intro l h
    simp only [getMissingNetworks] at h
    cases h
    exact List.Sublist.refl []
  | cons n rest ih =>
    intro l h
    simp only [getMissingNetworks] at h
    cases hev : isEventOnNetwork fail st n globalId with
    | error u => rw [hev] at h; cases h
    | ok b =>
      rw [hev] at h
      cases hrec : getMissingNetworks fail st globalId rest with
      | error u => rw [hrec] at h; simp [exceptBind_ok, exceptBind_error] at h
      | ok ms =>
        rw [hrec] at h
        simp only [exceptBind_ok, pure, Except.pure] at h
        cases h
        cases b with
        | true => simpa using (ih hrec).cons n
        | false => simpa using (ih hrec).cons₂ n

/-- One replication branch preserves cache membership. -/
theorem replicateTarget_fst_mem {cfg : Config} {globalId k m : String}
    (acc : RedisState × List Action) (net : String)
    (h : (k, m) ∈ acc.1) : (k, m) ∈ (replicateTarget cfg globalId acc net).1 := by
  obtain ⟨st, tr⟩ := acc
  simp only [replicateTarget]
  by_cases hc : cfg.adapters.contains net = true
  · simp only [hc, if_true]
    by_cases hp : cfg.pubOk net = true
    · simp only [hp, if_true]
      rcases heq : markEventPublished cfg.cacheFail st net globalId with u | st'
      · simp only [heq]
        exact h
      · simp only [heq]
        rw [markEventPublished_ok heq]
        exact mem_sAdd_of_mem _ _ h
    · simp only [Bool.not_eq_true] at hp
      simp only [hp, Bool.false_eq_true, if_false]
      exact h
  · simp only [Bool.not_eq_true] at hc
    simp only [hc, Bool.false_eq_true, if_false]
    exact h

/-- The replication fan-out preserves cache membership. -/
theorem foldl_replicateTarget_mem {cfg : Config} {globalId k m : String} :
    ∀ (targets : List String) (acc : RedisState × List Action),
      (k, m) ∈ acc.1 →
      (k, m) ∈ (targets.foldl (replicateTarget cfg globalId) acc).1 := by
  intro targets
  induction targets with
  | nil => intro acc h; simpa using h
  | cons t rest ih =>
    intro acc h
    simp only [List.foldl_cons]
    exact ih _ (replicateTarget_fst_mem acc t h)

/-- With an available cache and successful publishes, the fan-out marks every
target that is a configured adapter. -/
theorem foldl_replicateTarget_marks (cfg : Config) (globalId : String)
    (hcache : ∀ k, cfg.cacheFail k = false) (hpub : ∀ n, cfg.pubOk n = true) :
    ∀ (targets : List String) (acc : RedisState × List Action) (a : String),
      a ∈ targets → a ∈ cfg.adapters →
      (networkKey a, globalId) ∈ (targets.foldl (replicateTarget cfg globalId) acc).1 := by
  intro targets
  induction targets with
  | nil => intro acc a h; cases h
  | cons t rest ih =>
    intro acc a ha hadap
    simp only [List.foldl_cons]
    rcases List.mem_cons.mp ha with rfl | ha'
    · apply foldl_replicateTarget_mem
      obtain ⟨st, tr⟩ := acc
      have hc : cfg.adapters.contains a = true := List.elem_eq_true_of_mem hadap
      unfold replicateTarget
      simp only [hc, if_true, hpub a, markEventPublished, hcache,
        Bool.false_eq_true, if_false]
      exact mem_sAdd_self st (networkKey a) globalId
    · exact ih _ a ha' hadap

/-- Counting publishes distributes over trace concatenation. -/
theorem countPublishes_append (network : String) (l1 l2 : List Action) :
    countPublishes network (l1 ++ l2) =
      countPublishes network l1 + countPublishes network l2 := by
  simp [countPublishes, List.countP_append]

/-- A mark action is not a publish. -/
theorem countPublishes_single_mark (network net globalId : String) :
    countPublishes network [Action.markPublished net globalId] = 0 := by
  simp [countPublishes, List.countP_cons, isPublishTo]

/-- One replication branch adds at most one publish, and only to its own
target. -/
theorem replicateTarget_count (cfg : Config) (globalId network : String)
    (acc : RedisState × List Action) (t : String) :
    countPublishes network (replicateTarget cfg globalId acc t).2 =
      countPublishes network acc.2 +
        (if cfg.adapters.contains t then (if t == network then 1 else 0) else 0) := by
  obtain ⟨st, tr⟩ := acc
  simp only [replicateTarget]
  by_cases hc : cfg.adapters.contains t = true
  · simp only [hc, if_true]
    by_cases hp : cfg.pubOk t = true
    · simp only [hp, if_true]
      rcases heq : markEventPublished cfg.cacheFail st t globalId with u | st' <;>
        simp [heq, countPublishes, List.countP_append, List.countP_cons, isPublishTo]
    · simp only [Bool.not_eq_true] at hp
      simp [hp, countPublishes, List.countP_append, List.countP_cons, isPublishTo]
  · simp only [Bool.not_eq_true] at hc
    have hmem : t ∉ cfg.adapters := by simpa using hc
    simp [hmem, hc]

/-- The replication fan-out publishes to a network at most as often as the
network occurs among the targets. -/
theorem foldl_replicateTarget_count (cfg : Config) (globalId network : String) :
    ∀ (targets : List String) (acc : RedisState × List Action),
      countPublishes network (targets.foldl (replicateTarget cfg globalId) acc).2 ≤
        countPublishes network acc.2 + targets.count network := by
  intro targets
  induction targets with
  | nil => intro acc; simp
  | cons t rest ih =>
    intro acc
    simp only [List.foldl_cons]
    have h1 := ih (replicateTarget cfg globalId acc t)
    have h2 : countPublishes network (replicateTarget cfg globalId acc t).2 ≤
        countPublishes network acc.2 + (if (t == network) = true then 1 else 0) := by
      rw [replicateTarget_count]
      by_cases hc : cfg.adapters.contains t = true
      · rw [if_pos hc]
      · rw [if_neg hc, Nat.add_zero]
        exact Nat.le_add_right _ _
    rw [List.count_cons]
    by_cases ht : (t == network) = true
    · rw [if_pos ht] at h2
      rw [if_pos ht]
      omega
    · rw [if_neg ht] at h2
      rw [if_neg ht]
      omega

/-- One (fire-and-forget) `handleIncomingEvent` invocation makes at most one
`Publish` call per network: the targets are the missing networks, a
duplicate-free selection from the configured adapters. -/
theorem dispatchIncoming_count (cfg : Config) (e : DomeEvent) (parse : URLParse)
    (sourceNetwork : String) (st : RedisState) (network : String)
    (hnd : cfg.adapters.Nodup) :
    countPublishes network (dispatchIncoming cfg e parse sourceNetwork st).2 ≤ 1 := by
  unfold dispatchIncoming handleIncomingEvent
  cases hex : extractGlobalId e.dataLocation parse with
  | error err =>
    simp only [hex]
    simp [countPublishes]
  | ok globalId =>
    simp only [hex]
    cases hmk : markEventPublished cfg.cacheFail st sourceNetwork globalId with
    | error u =>
      simp only [hmk]
      simp [countPublishes, List.countP_cons, isPublishTo]
    | ok st1 =>
      simp only [hmk]
      cases hmiss : getMissingNetworks cfg.cacheFail st1 globalId cfg.adapters with
      | error u =>
        simp only [hmiss]
        simp [countPublishes, List.countP_append, List.countP_cons, isPublishTo]
      | ok missing =>
        simp only [hmiss]
        have hsub : missing.Sublist cfg.adapters := getMissingNetworks_ok_sublist hmiss
        have hmnd : missing.Nodup := hnd.sublist hsub
        by_cases hempty : missing.isEmpty = true
        · simp [hempty, countPublishes, List.countP_cons, isPublishTo]
        · simp only [hempty, Bool.false_eq_true, if_false]
          unfold replicateToNetworks
          rw [if_neg (by simpa using hempty), hex]
          have hc := foldl_replicateTarget_count cfg globalId network missing (st1, [])
          have hcount : missing.count network ≤ 1 :=
            List.nodup_iff_count_le_one.mp hmnd network
          cases hfold : missing.foldl (replicateTarget cfg globalId) (st1, []) with
          | mk st2 tr2 =>
            rw [hfold] at hc
            simp only [hfold]
            have h2 : countPublishes network tr2 ≤
                countPublishes network ([] : List Action) + List.count network missing := by
              simpa using hc
            have h3 : countPublishes network ([] : List Action) = 0 := rfl
            rw [countPublishes_append]
            have h4 := countPublishes_single_mark network sourceNetwork globalId
            omega

/-- When every configured network already carries the global id, a
(fire-and-forget) `handleIncomingEvent` invocation only re-marks the source and
replicates nothing. -/
theorem dispatchIncoming_all_marked (cfg : Config) (e : DomeEvent)
    (parse : URLParse) (sourceNetwork globalId : String) (st : RedisState)
    (hcache : ∀ k, cfg.cacheFail k = false)
    (hgid : extractGlobalId e.dataLocation parse = .ok globalId)
    (hall : ∀ a ∈ cfg.adapters, (networkKey a, globalId) ∈ st) :
    dispatchIncoming cfg e parse sourceNetwork st =
      (sAdd st (networkKey sourceNetwork) globalId,
       [Action.markPublished sourceNetwork globalId]) := by
  unfold dispatchIncoming handleIncomingEvent
  rw [hgid]
  simp only [markEventPublished, hcache, Bool.false_eq_true, if_false]
  rw [getMissingNetworks_reliable cfg.cacheFail hcache]
  have hfil : cfg.adapters.filter
      (fun n => !(sIsMember (sAdd st (networkKey sourceNetwork) globalId)
        (networkKey n) globalId)) = [] := by
    apply List.filter_eq_nil_iff.mpr
    intro a ha
    have hmem : (networkKey a, globalId) ∈ sAdd st (networkKey sourceNetwork) globalId :=
      mem_sAdd_of_mem _ _ (hall a ha)
    simp [sIsMember_eq_true_iff.mpr hmem]
  rw [hfil]
  simp

/-- With an available cache and successful publishes, one invocation marks the
global id on every configured network. -/
theorem dispatchIncoming_marks_all (cfg : Config) (e : DomeEvent)
    (parse : URLParse) (sourceNetwork globalId : String) (st : RedisState)
    (hcache : ∀ k, cfg.cacheFail k = false)
    (hpub : ∀ n, cfg.pubOk n = true)
    (hgid : extractGlobalId e.dataLocation parse = .ok globalId) :
    ∀ a ∈ cfg.adapters,
      (networkKey a, globalId) ∈ (dispatchIncoming cfg e parse sourceNetwork st).1 := by
  intro a ha
  unfold dispatchIncoming handleIncomingEvent
  rw [hgid]
  simp only [markEventPublished, hcache, Bool.false_eq_true, if_false]
  rw [getMissingNetworks_reliable cfg.cacheFail hcache]
  set st1 := sAdd st (networkKey sourceNetwork) globalId with hst1
  set pmiss := fun n => !(sIsMember st1 (networkKey n) globalId) with hpmiss
  by_cases hempty : (cfg.adapters.filter pmiss).isEmpty = true
  · simp only [hempty, if_true]
    have hfil : cfg.adapters.filter pmiss = [] := by
      simpa [List.isEmpty_iff] using hempty
    have hpa : pmiss a = false := by
      by_contra hne
      have : a ∈ cfg.adapters.filter pmiss :=
        List.mem_filter.mpr ⟨ha, by simpa using hne⟩
      simp [hfil] at this
    have : sIsMember st1 (networkKey a) globalId = true := by
      simpa [hpmiss] using hpa
    exact sIsMember_eq_true_iff.mp this
  · simp only [hempty, Bool.false_eq_true, if_false]
    unfold replicateToNetworks
    rw [if_neg (by simpa using hempty)]
    rw [hgid]
    simp only []
    by_cases hpa : pmiss a = true
    · have hin : a ∈ cfg.adapters.filter pmiss := List.mem_filter.mpr ⟨ha, hpa⟩
      exact foldl_replicateTarget_marks cfg globalId hcache hpub _ (st1, []) a hin ha
    · have hmem : (networkKey a, globalId) ∈ st1 := by
        apply sIsMember_eq_true_iff.mp
        simpa [hpmiss] using hpa
      exact foldl_replicateTarget_mem _ _ hmem

/-- Once every configured network carries the global id, any number of further
invocations performs zero `Publish` calls. -/
theorem runIncomingN_zero_when_marked (cfg : Config) (e : DomeEvent)
    (parse : URLParse) (sourceNetwork globalId : String)
    (hcache : ∀ k, cfg.cacheFail k = false)
    (hgid : extractGlobalId e.dataLocation parse = .ok globalId) :
    ∀ (n : Nat) (st : RedisState),
      (∀ a ∈ cfg.adapters, (networkKey a, globalId) ∈ st) →
      ∀ network,
        countPublishes network (runIncomingN cfg e parse sourceNetwork n st).2 = 0 := by
  intro n
  induction n with
  | zero =>
    intro st hall network
    simp [runIncomingN, countPublishes]
  | succ n ih =>
    intro st hall network
    simp only [runIncomingN]
    rw [dispatchIncoming_all_marked cfg e parse sourceNetwork globalId st hcache hgid hall]
    have hall' : ∀ a ∈ cfg.adapters,
        (networkKey a, globalId) ∈ sAdd st (networkKey sourceNetwork) globalId :=
      fun a ha => mem_sAdd_of_mem _ _ (hall a ha)
    cases hrun : runIncomingN cfg e parse sourceNetwork n
        (sAdd st (networkKey sourceNetwork) globalId) with
    | mk st2 tr2 =>
      have h2 := ih (sAdd st (networkKey sourceNetwork) globalId) hall' network
      rw [hrun] at h2
      simp only [hrun]
      rw [countPublishes_append]
      have h1 := countPublishes_single_mark network sourceNetwork globalId
      simp only [] at h2
      omega

/-! ## C4 — idempotence of the replication handler -/

/-- C4 counterexample: with both replication publishes failing (e.g. the target
adapter is down), two consecutive `handleIncomingEvent` calls for the same
`(globalId, sourceChain)` make TWO `Publish` calls to the still-missing chain
`alastria` — the failed target is never marked, so each pass retries it.  "N
consecutive calls produce at most one Publish call per target chain" is
therefore false as stated. -/
theorem handleIncoming_republishes_after_failure :
    countPublishes "alastria"
      (runIncomingN cfgPubFail evProduct parseProduct "hashnet" 2 []).2 = 2 := by
  decide

/-- C4 amended: (a) if every configured network already carries the global id,
a further `handleIncomingEvent` call performs zero `Publish` calls (the
missing-network set is empty); (b) when every replication publish succeeds, N
consecutive calls produce at most one `Publish` call per target chain (the
first pass marks every chain, later passes see nothing missing).  In general a
FAILED publish leaves its chain unmarked and is retried by later calls. -/
theorem handleIncoming_idempotent_amended (cfg : Config) (e : DomeEvent)
    (parse : URLParse) (sourceNetwork globalId : String) (st : RedisState)
    (hnd : cfg.adapters.Nodup)
    (hcache : ∀ k, cfg.cacheFail k = false)
    (hgid : extractGlobalId e.dataLocation parse = .ok globalId) :
    ((∀ a ∈ cfg.adapters, (networkKey a, globalId) ∈ st) →
      ∀ network,
        countPublishes network (dispatchIncoming cfg e parse sourceNetwork st).2 = 0) ∧
    ((∀ n, cfg.pubOk n = true) →
      ∀ (n : Nat) (network : String),
        countPublishes network (runIncomingN cfg e parse sourceNetwork n st).2 ≤ 1) := by
  constructor
  · intro hall network
    rw [dispatchIncoming_all_marked cfg e parse sourceNetwork globalId st hcache hgid hall]
    simp [countPublishes, List.countP_cons, isPublishTo]
  · intro hpub n network
    cases n with
    | zero => simp [runIncomingN, countPublishes]
    | succ n =>
      simp only [runIncomingN]
      have hall := dispatchIncoming_marks_all cfg e parse sourceNetwork globalId st
        hcache hpub hgid
      have hcnt := dispatchIncoming_count cfg e parse sourceNetwork st network hnd
      cases hd : dispatchIncoming cfg e parse sourceNetwork st with
      | mk st1 tr1 =>
        rw [hd] at hall hcnt
        simp only [hd]
        have hz := runIncomingN_zero_when_marked cfg e parse sourceNetwork globalId
          hcache hgid n st1 (by simpa using hall) network
        cases hrun : runIncomingN cfg e parse sourceNetwork n st1 with
        | mk st2 tr2 =>
          rw [hrun] at hz
          simp only [hrun]
          rw [countPublishes_append]
          simp only [] at hz hcnt
          omega

/-- Witness for the amended C4 theorem at the all-healthy fixture. -/
theorem handleIncoming_idempotent_amended_witness :
    ((∀ a ∈ cfgAllOk.adapters, (networkKey a, "0xccc") ∈ ([] : RedisState)) →
      ∀ network,
        countPublishes network
          (dispatchIncoming cfgAllOk evProduct parseProduct "hashnet" []).2 = 0) ∧
    ((∀ n, cfgAllOk.pubOk n = true) →
      ∀ (n : Nat) (network : String),
        countPublishes network
          (runIncomingN cfgAllOk evProduct parseProduct "hashnet" n []).2 ≤ 1) :=
  handleIncoming_idempotent_amended cfgAllOk evProduct parseProduct "hashnet"
    "0xccc" [] (by decide) (fun _ => rfl) (by decide)

/-! ## C3 — at-most-once consumer notification -/

/-- Counting POSTs distributes over log concatenation. -/
theorem postCount_append (l1 l2 : List Post) (sid gid : String) :
    postCount (l1 ++ l2) sid gid = postCount l1 sid gid + postCount l2 sid gid := by
  simp [postCount, List.filter_append]

/-- The POSTs of one dispatch carry only that dispatch's global id. -/
theorem postCount_newPosts_ne (matching : List Subscription)
    (postOk : String → Bool) (body : DomeEvent) (gid sid g : String)
    (hg : g ≠ gid) :
    postCount (matching.map fun sub =>
      { subId := sub.id, callbackUrl := sub.callbackUrl, globalId := gid,
        body := body, delivered := postOk sub.callbackUrl : Post }) sid g = 0 := by
  induction matching with
  | nil => rfl
  | cons s rest ih =>
    have hb : (gid == g) = false := beq_eq_false_iff_ne.mpr (Ne.symm hg)
    simp [postCount, List.filter_cons, hb] at ih ⊢
    exact ih

/-- One dispatch POSTs to each distinct subscription at most once for its
global id. -/
theorem postCount_newPosts_le_one (matching : List Subscription)
    (postOk : String → Bool) (body : DomeEvent) (gid sid : String)
    (hnd : (matching.map Subscription.id).Nodup) :
    postCount (matching.map fun sub =>
      { subId := sub.id, callbackUrl := sub.callbackUrl, globalId := gid,
        body := body, delivered := postOk sub.callbackUrl : Post }) sid gid ≤ 1 := by
  rw [postCount, ← List.countP_eq_length_filter, List.countP_map]
  have hpred : ((fun p : Post => p.subId == sid && p.globalId == gid) ∘
      (fun sub : Subscription =>
        { subId := sub.id, callbackUrl := sub.callbackUrl, globalId := gid,
          body := body, delivered := postOk sub.callbackUrl : Post })) =
      (fun sub : Subscription => sub.id == sid) := by
    funext sub
    simp
  rw [hpred]
  have h2 : (matching.map Subscription.id).count sid =
      matching.countP (fun sub => sub.id == sid) := by
    show (matching.map Subscription.id).countP (· == sid) = _
    rw [List.countP_map]
    rfl
  rw [← h2]
  exact List.nodup_iff_count_le_one.mp hnd sid

/-- The at-most-once invariant: every (subscription, global id) pair has been
POSTed at most once, and not at all while the id is not yet in
`notifiedEvents`. -/
def NotifyInv (st : RedisState) (posts : List Post) : Prop :=
  ∀ sid g, postCount posts sid g ≤ 1 ∧
    ((NOTIFIED_EVENTS_KEY, g) ∉ st → postCount posts sid g = 0)

/-- One `handleDesmosNotification` dispatch preserves the at-most-once
invariant (distinct subscription ids, available `notifiedEvents` key). -/
theorem dispatchDesmos_preserves_inv (cfg : Config) (subs : List Subscription)
    (postOk : String → Bool) (e : DomeEvent) (parse : URLParse)
    (st : RedisState) (posts : List Post)
    (hnd : (subs.map Subscription.id).Nodup)
    (hnot : cfg.cacheFail NOTIFIED_EVENTS_KEY = false)
    (hinv : NotifyInv st posts) :
    NotifyInv (dispatchDesmos cfg subs postOk e parse st posts).1
      (dispatchDesmos cfg subs postOk e parse st posts).2 := by
  unfold dispatchDesmos handleDesmosNotification
  cases hex : extractGlobalId e.dataLocation parse with
  | error err =>
    simp only [hex]
    exact hinv
  | ok gid =>
    simp only [hex, isEventNotified, hnot, Bool.false_eq_true, if_false]
    by_cases halready : sIsMember st NOTIFIED_EVENTS_KEY gid = true
    · simp only [halready, if_true]
      exact hinv
    · simp only [Bool.not_eq_true] at halready
      simp only [halready, Bool.false_eq_true, if_false]
      by_cases hmatch : (matchingSubscriptions subs e).isEmpty = true
      · simp only [hmatch, if_true]
        exact hinv
      · simp only [hmatch, Bool.false_eq_true, if_false, markEventNotified, hnot]
        have hnmem : (NOTIFIED_EVENTS_KEY, gid) ∉ st := by
          intro hm
          rw [sIsMember_eq_true_iff.mpr hm] at halready
          cases halready
        have hzero : ∀ sid, postCount posts sid gid = 0 :=
          fun sid => (hinv sid gid).2 hnmem
        have hmnd : ((matchingSubscriptions subs e).map Subscription.id).Nodup :=
          hnd.sublist ((List.filter_sublist subs).map Subscription.id)
        intro sid g
        rw [postCount_append]
        by_cases hgg : g = gid
        · subst hgg
          have hle := postCount_newPosts_le_one (matchingSubscriptions subs e)
            postOk (stripNetworkParameter e) g sid hmnd
          constructor
          · rw [hzero sid]
            omega
          · intro hnm
            exact absurd (mem_sAdd_self st NOTIFIED_EVENTS_KEY g) hnm
        · have hne := postCount_newPosts_ne (matchingSubscriptions subs e)
            postOk (stripNetworkParameter e) gid sid g hgg
          constructor
          · rw [hne]
            have := (hinv sid g).1
            omega
          · intro hnm
            have hnost : (NOTIFIED_EVENTS_KEY, g) ∉ st :=
              fun hm => hnm (mem_sAdd_of_mem _ _ hm)
            rw [hne, (hinv sid g).2 hnost]

/-- Any sequence of dispatches preserves the at-most-once invariant. -/
theorem runDesmosCalls_inv (cfg : Config) (subs : List Subscription)
    (postOk : String → Bool)
    (hnd : (subs.map Subscription.id).Nodup)
    (hnot : cfg.cacheFail NOTIFIED_EVENTS_KEY = false) :
    ∀ (calls : List (DomeEvent × URLParse)) (st : RedisState) (posts : List Post),
      NotifyInv st posts →
      NotifyInv (runDesmosCalls cfg subs postOk calls st posts).1
        (runDesmosCalls cfg subs postOk calls st posts).2 := by
  intro calls
  induction calls with
  | nil =>
    intro st posts h
    simpa [runDesmosCalls] using h
  | cons c rest ih =>
    intro st posts h
    obtain ⟨e, parse⟩ := c
    simp only [runDesmosCalls]
    have hstep := dispatchDesmos_preserves_inv cfg subs postOk e parse st posts hnd hnot h
    cases hd : dispatchDesmos cfg subs postOk e parse st posts with
    | mk st1 posts1 =>
      rw [hd] at hstep
      simp only [hd]
      exact ih st1 posts1 hstep

/-- The cache evolution of one dispatch does not depend on the POST outcomes
or the prior log: the id is marked notified regardless. -/
theorem dispatchDesmos_fst_indep (cfg : Config) (subs : List Subscription)
    (e : DomeEvent) (parse : URLParse) (st : RedisState)
    (postOk postOk' : String → Bool) (posts posts' : List Post) :
    (dispatchDesmos cfg subs postOk e parse st posts).1 =
      (dispatchDesmos cfg subs postOk' e parse st posts').1 := by
  unfold dispatchDesmos handleDesmosNotification
  cases hex : extractGlobalId e.dataLocation parse with
  | error err =>
    simp only [hex]
  | ok gid =>
    simp only [hex]
    cases hn : isEventNotified cfg.cacheFail st gid with
    | error u =>
      simp only [hn]
    | ok already =>
      simp only [hn]
      by_cases ha : already = true
      · rw [if_pos ha, if_pos ha]
      · rw [if_neg ha, if_neg ha]
        by_cases hm : (matchingSubscriptions subs e).isEmpty = true
        · rw [if_pos hm, if_pos hm]
        · rw [if_neg hm, if_neg hm]
          cases hmk : markEventNotified cfg.cacheFail st gid with
          | ok st1 =>
            simp only [hmk]
          | error u =>
            simp only [hmk]

/-- The cache evolution of a call sequence does not depend on the POST
outcomes. -/
theorem runDesmosCalls_fst_indep (cfg : Config) (subs : List Subscription)
    (postOk postOk' : String → Bool) :
    ∀ (calls : List (DomeEvent × URLParse)) (st : RedisState)
      (posts posts' : List Post),
      (runDesmosCalls cfg subs postOk calls st posts).1 =
        (runDesmosCalls cfg subs postOk' calls st posts').1 := by
  intro calls
  induction calls with
  | nil => intro st posts posts'; rfl
  | cons c rest ih =>
    intro st posts posts'
    obtain ⟨e, parse⟩ := c
    simp only [runDesmosCalls]
    have heq := dispatchDesmos_fst_indep cfg subs e parse st postOk postOk' posts posts'
    cases hd : dispatchDesmos cfg subs postOk e parse st posts with
    | mk st1 posts1 =>
      cases hd' : dispatchDesmos cfg subs postOk' e parse st posts' with
      | mk st1' posts1' =>
        rw [hd, hd'] at heq
        simp only [] at heq
        simp only [hd, hd', heq]
        exact ih st1' posts1 posts1'

/-- C3: across any sequence of `handleDesmosNotification` calls in one engine
lifetime (distinct subscription ids, `notifiedEvents` key available), each
subscription's callback is POSTed at most once per global id: the first
dispatching call marks the id notified — regardless of the POST outcomes, as
witnessed by the cache evolving identically under every outcome oracle — and
later calls stop at the `isEventNotified` gate before contacting any
callback. -/
theorem consumer_callback_at_most_once_per_id (cfg : Config)
    (subs : List Subscription) (postOk : String → Bool)
    (calls : List (DomeEvent × URLParse)) (st₀ : RedisState)
    (hnd : (subs.map Subscription.id).Nodup)
    (hnot : cfg.cacheFail NOTIFIED_EVENTS_KEY = false) :
    (∀ sid g, postCount (runDesmosCalls cfg subs postOk calls st₀ []).2 sid g ≤ 1) ∧
    (∀ postOk', (runDesmosCalls cfg subs postOk calls st₀ []).1 =
      (runDesmosCalls cfg subs postOk' calls st₀ []).1) := by
  constructor
  · intro sid g
    have h0 : NotifyInv st₀ [] := by
      intro sid g
      exact ⟨by simp [postCount], fun _ => rfl⟩
    exact ((runDesmosCalls_inv cfg subs postOk hnd hnot calls st₀ [] h0) sid g).1
  · intro postOk'
    exact runDesmosCalls_fst_indep cfg subs postOk postOk' calls st₀ [] []

/-- Witness for C3: the duplicated delivery of scenario S4 — one subscription
for `ProductAdded`, the same event dispatched twice. -/
theorem consumer_callback_at_most_once_witness :
    (∀ sid g, postCount
      (runDesmosCalls cfgAllOk
        [{ id := "sub-2", eventTypes := ["ProductAdded"],
           callbackUrl := "http://desmos-server/webhook" }] (fun _ => true)
        [(evProduct, parseProduct), (evProduct, parseProduct)] [] []).2 sid g ≤ 1) ∧
    (∀ postOk', (runDesmosCalls cfgAllOk
        [{ id := "sub-2", eventTypes := ["ProductAdded"],
           callbackUrl := "http://desmos-server/webhook" }] (fun _ => true)
        [(evProduct, parseProduct), (evProduct, parseProduct)] [] []).1 =
      (runDesmosCalls cfgAllOk
        [{ id := "sub-2", eventTypes := ["ProductAdded"],
           callbackUrl := "http://desmos-server/webhook" }] postOk'
        [(evProduct, parseProduct), (evProduct, parseProduct)] [] []).1) :=
  consumer_callback_at_most_once_per_id cfgAllOk
    [{ id := "sub-2", eventTypes := ["ProductAdded"],
       callbackUrl := "http://desmos-server/webhook" }] (fun _ => true)
    [(evProduct, parseProduct), (evProduct, parseProduct)] []
    (by decide) rfl

end DomeIED
